import Mathlib

/-!
A shallow embedding of the authentication core of the `cascade` repository:
the identity model (`src/domain/models/user.rs`, `src/domain/models/credential.rs`),
the password-hashing policy (`src/infrastructure/argon2_password_hasher.rs`),
the token issuer (`src/infrastructure/jwt_token_generator.rs`), the storage
adapters (`src/infrastructure/*_repository.rs`) over an explicit relational
store, and the two orchestration protocols (`src/usecase/login_usecase.rs`,
`src/usecase/register_user_usecase.rs`) and the HTTP handler layer
(`src/presentation/handlers/user_handler.rs`).

Modelling conventions:
* Rust `Uuid` values are modelled as `Nat`; `chrono` timestamps as `Int`
  (seconds); `Utc::now()` and `Uuid::new_v4()` become explicit parameters.
* Rust `Result<A, E>` becomes `Except E A`.
* The external `argon2` crate is not code of this repository; its digest is
  modelled as an executable deterministic function of salt and password, and
  its PHC-string encoding/parsing as an executable encoder/parser.  The
  development relies only on determinism of the digest and on the parser
  inverting the encoder.
-/

namespace Cascade

/-! ### Domain errors (`src/domain/error.rs`) -/

/-- Rust `RepositoryError` from `src/domain/error.rs`. -/
inductive RepositoryError where
  | NotFound
  | DatabaseError (msg : String)
  deriving DecidableEq, Repr

/-- Rust `DomainError` from `src/domain/error.rs`.  The `Repository` variant carries
a `RepositoryError`, matching `#[from] RepositoryError`. -/
inductive DomainError where
  | Repository (e : RepositoryError)
  | AuthenticationFailed
  | InvalidCredentials
  | WeakPassword
  | EmptyDisplayName
  | InvalidActivityId
  deriving DecidableEq, Repr

deriving instance DecidableEq for Except

/-! ### Model of the external `argon2` primitive -/

/-- Executable stand-in for the digest computed by the external `argon2`
crate: an unspecified deterministic function of the salt and the password.
Only its determinism matters to the development. -/
def argon2Digest (salt pwd : String) : String :=
  "d·" ++ salt ++ "·" ++ pwd

/-- The PHC-style textual encoding produced by `hash_password(...).to_string()`:
a recognisable prefix, then the salt, a separator, and the digest. -/
def phcEncode (salt digest : String) : String :=
  "$argon2id$" ++ salt ++ "$" ++ digest

/-- Split a character list at the first `'$'`: returns the part before it and
the part after it, or `none` when no `'$'` occurs. -/
def splitFirst : List Char → Option (List Char × List Char)
  | [] => none
  | c :: cs =>
    if c = '$' then some ([], cs)
    else
      match splitFirst cs with
      | none => none
      | some (a, b) => some (c :: a, b)

/-- Stand-in for `argon2::PasswordHash::new`: parse a stored string as a PHC
hash, recovering the salt and the digest; `none` models a parse error. -/
def parsePhc (s : String) : Option (String × String) :=
  if "$argon2id$".toList.isPrefixOf s.toList then
    match splitFirst (s.toList.drop "$argon2id$".toList.length) with
    | none => none
    | some (a, b) => some (String.mk a, String.mk b)
  else none

/-! ### Identity model (`src/domain/models/user.rs`) -/

/-- Model of Rust `String::starts_with` on string slices. -/
def strStartsWith (p s : String) : Bool :=
  p.toList.isPrefixOf s.toList

/-- Rust `UserId(Uuid)` from `src/domain/models/user.rs`; `Uuid` modelled as `Nat`. -/
structure UserId where
  uuid : Nat
  deriving DecidableEq, Repr

/-- Rust `ActivityId(String)` from `src/domain/models/user.rs`.  Constructed only
through `ActivityId.new`. -/
structure ActivityId where
  value : String
  deriving DecidableEq, Repr

/-- Constructor `ActivityId::new`: fails with `InvalidActivityId` unless the string starts
with `https://`. -/
def ActivityId.new (value : String) : Except DomainError ActivityId :=
  if !strStartsWith "https://" value then
    .error DomainError.InvalidActivityId
  else
    .ok ⟨value⟩

/-- Getter `ActivityId::as_str`. -/
def ActivityId.as_str (a : ActivityId) : String := a.value

/-- Rust `User` from `src/domain/models/user.rs`:
`{id, activity_id, display_name, icon_url}`. -/
structure User where
  id : UserId
  activity_id : ActivityId
  display_name : String
  icon_url : Option String
  deriving DecidableEq, Repr

/-- Constructor `User::new`: fails with `EmptyDisplayName` iff the display name is empty. -/
def User.new (id : Nat) (activity_id : ActivityId) (display_name : String)
    (icon_url : Option String) : Except DomainError User :=
  if display_name.isEmpty then
    .error DomainError.EmptyDisplayName
  else
    .ok ⟨⟨id⟩, activity_id, display_name, icon_url⟩

/-! ### Hashed passwords and credentials (`src/domain/models/credential.rs`) -/

/-- Rust `HashedPassword(String)`: opaque wrapper around the hash's textual
encoding. -/
structure HashedPassword where
  raw : String
  deriving DecidableEq, Repr

/-- Constructor `HashedPassword::new`.  Modelled from the spec: this constructor is called
by `Argon2PasswordHasher::hash` and `PostgresCredentialRepository` but its body
is not under `src/`; per the spec the type is an "opaque wrapper around an
algorithm-tagged hash string", so `new` wraps the given encoding. -/
def HashedPassword.new (hash : String) : HashedPassword := ⟨hash⟩

/-- Getter `HashedPassword::as_str`. -/
def HashedPassword.as_str (h : HashedPassword) : String := h.raw

/-- Constructor `HashedPassword::from_password` (`credential.rs` lines 15–29): rejects
plaintexts whose Rust `len()` — the UTF-8 byte length — is below 8, then hashes
with a fresh random salt (the salt is an explicit parameter here). -/
def HashedPassword.from_password (salt plain_password : String) :
    Except DomainError HashedPassword :=
  if plain_password.utf8ByteSize < 8 then
    .error DomainError.WeakPassword
  else
    .ok ⟨phcEncode salt (argon2Digest salt plain_password)⟩

/-- Constructor `HashedPassword::from_string` (`credential.rs` lines 31–34): validates
that the stored string parses as a hash encoding. -/
def HashedPassword.from_string (hash : String) : Except DomainError HashedPassword :=
  match parsePhc hash with
  | none => .error DomainError.InvalidCredentials
  | some _ => .ok ⟨hash⟩

/-- Method `HashedPassword::verify` (`credential.rs` lines 36–45): `false` on a parse
failure, otherwise the result of the argon2 verification. -/
def HashedPassword.verify (h : HashedPassword) (plain_password : String) : Bool :=
  match parsePhc h.raw with
  | none => false
  | some (salt, digest) => argon2Digest salt plain_password == digest

/-- Rust `Credential` from `src/domain/models/credential.rs`:
`{id, user_id, password_hash, created_at, updated_at}`. -/
structure Credential where
  id : Nat
  user_id : String
  password_hash : HashedPassword
  created_at : Int
  updated_at : Int
  deriving DecidableEq, Repr

/-- Constructor `Credential::new`: both timestamps are set to `Utc::now()` (parameter
`now`). -/
def Credential.new (id : Nat) (user_id : String) (password_hash : HashedPassword)
    (now : Int) : Credential :=
  ⟨id, user_id, password_hash, now, now⟩

/-- Constructor `Credential::reconstruct`. -/
def Credential.reconstruct (id : Nat) (user_id : String)
    (password_hash : HashedPassword) (created_at updated_at : Int) : Credential :=
  ⟨id, user_id, password_hash, created_at, updated_at⟩

/-- Method `Credential::verify_password`: `AuthenticationFailed` unless the hash
verifies. -/
def Credential.verify_password (c : Credential) (plain_password : String) :
    Except DomainError Unit :=
  if c.password_hash.verify plain_password then .ok () else .error DomainError.AuthenticationFailed

/-- Method `Credential::validate`.  Modelled from the spec: `LoginUsecase::login`
calls `credential.validate(is_valid)` but no such method is under `src/`
(`credential.rs` only has `verify_password`); per spec §4.4 step 2, a password
mismatch fails with `AuthenticationFailed`, so `validate` turns `false` into
that error. -/
def Credential.validate (_c : Credential) (is_valid : Bool) : Except DomainError Unit :=
  if is_valid then .ok () else .error DomainError.AuthenticationFailed

/-- Method `Credential::change_password` (`credential.rs` lines 97–100): replace the
hash and set `updated_at` to `Utc::now()` (parameter `now`). -/
def Credential.change_password (c : Credential) (new_password_hash : HashedPassword)
    (now : Int) : Credential :=
  { c with password_hash := new_password_hash, updated_at := now }

/-! ### Password hashing policy (`src/infrastructure/argon2_password_hasher.rs`) -/

namespace Argon2PasswordHasher

/-- Method `Argon2PasswordHasher::hash`: reject plaintexts whose Rust `len()` — the
UTF-8 byte length — is below 8 with `WeakPassword`, otherwise hash with a
fresh random salt (explicit parameter `salt`; with a valid salt the external
primitive does not fail). -/
def hash (salt plain_password : String) : Except DomainError HashedPassword :=
  if plain_password.utf8ByteSize < 8 then
    .error DomainError.WeakPassword
  else
    .ok (HashedPassword.new (phcEncode salt (argon2Digest salt plain_password)))

/-- Method `Argon2PasswordHasher::verify`: a stored hash that does not parse yields
`Err(InvalidCredentials)`; a parsed hash yields `Ok` of the verification
outcome. -/
def verify (plain_password : String) (hashed_password : HashedPassword) :
    Except DomainError Bool :=
  match parsePhc hashed_password.raw with
  | none => .error DomainError.InvalidCredentials
  | some (salt, digest) => .ok (argon2Digest salt plain_password == digest)

end Argon2PasswordHasher

/-! ### Token issuer (`src/infrastructure/jwt_token_generator.rs`) -/

/-- The JWT claim struct `Claims`. -/
structure Claims where
  sub : String
  activity_id : String
  exp : Int
  iat : Int
  deriving DecidableEq, Repr

/-- Stand-in for `Uuid::to_string`. -/
def uuidToString (u : Nat) : String := toString u

/-- Executable stand-in for `jsonwebtoken::encode`: an unspecified injective
encoding of the claims signed with the secret.  The external crate is not code
of this repository; nothing in the development depends on the encoding's
shape. -/
def jwtEncode (c : Claims) (secret : String) : String :=
  "jwt·" ++ c.sub ++ "·" ++ c.activity_id ++ "·" ++ toString c.iat ++ "·"
    ++ toString c.exp ++ "·" ++ secret

/-- Rust `JwtTokenGenerator { secret, expiration_hours }`. -/
structure JwtTokenGenerator where
  secret : String
  expiration_hours : Int
  deriving DecidableEq, Repr

/-- Constructor `JwtTokenGenerator::new`: the expiration defaults to 24 hours. -/
def JwtTokenGenerator.new (secret : String) : JwtTokenGenerator :=
  ⟨secret, 24⟩

/-- Constructor `JwtTokenGenerator::with_expiration`. -/
def JwtTokenGenerator.with_expiration (secret : String) (expiration_hours : Int) :
    JwtTokenGenerator :=
  ⟨secret, expiration_hours⟩

/-- The claim set built inside `JwtTokenGenerator::generate`: subject is the
user's UUID in string form, the activity identifier, `iat = now`,
`exp = (now + Duration::hours(expiration_hours)).timestamp()`.  Time is in
seconds, so an hour is 3600. -/
def JwtTokenGenerator.buildClaims (g : JwtTokenGenerator) (user : User) (now : Int) :
    Claims :=
  { sub := uuidToString user.id.uuid
    activity_id := user.activity_id.value
    exp := now + g.expiration_hours * 3600
    iat := now }

/-- Method `JwtTokenGenerator::generate`: encode the claim set with the secret.  With
a valid secret the external encoder does not fail. -/
def JwtTokenGenerator.generate (g : JwtTokenGenerator) (user : User) (now : Int) :
    Except DomainError String :=
  .ok (jwtEncode (g.buildClaims user now) g.secret)

/-! ### The relational store

The two tables created in `src/main.rs`'s test setup and written by the
Postgres adapters: `users (id PK, activity_id UNIQUE, name, summary, icon)`
and `credentials (user_id PK, activity_id UNIQUE, password_hash, email UNIQUE,
created_at, updated_at)`.  The `icon` JSON column is modelled directly as the
optional URL string the adapters extract from it. -/

/-- A row of the `users` table. -/
structure UserRow where
  id : Nat
  activity_id : String
  name : String
  summary : String
  icon : Option String
  deriving DecidableEq, Repr

/-- A row of the `credentials` table. -/
structure CredentialRow where
  user_id : Nat
  activity_id : String
  password_hash : String
  email : String
  created_at : Int
  updated_at : Int
  deriving DecidableEq, Repr

/-- The backing store: the two tables. -/
structure Store where
  users : List UserRow
  credentials : List CredentialRow
  deriving DecidableEq, Repr

/-- The empty store. -/
def Store.empty : Store := ⟨[], []⟩

/-- Insert into `users`, enforcing the table's key constraints
(`id` primary key, `activity_id` unique); a violation is surfaced as the
adapters surface it, a `DatabaseError`. -/
def insertUser (st : Store) (row : UserRow) : Except RepositoryError Store :=
  if st.users.any (fun u => u.id == row.id || u.activity_id == row.activity_id) then
    .error (RepositoryError.DatabaseError "users unique violation")
  else
    .ok { st with users := st.users ++ [row] }

/-- Insert into `credentials`, enforcing the table's key constraints
(`user_id` primary key, `activity_id` unique, `email` unique). -/
def insertCredential (st : Store) (row : CredentialRow) : Except RepositoryError Store :=
  if st.credentials.any (fun c =>
      c.user_id == row.user_id || c.activity_id == row.activity_id || c.email == row.email) then
    .error (RepositoryError.DatabaseError "credentials unique violation")
  else
    .ok { st with credentials := st.credentials ++ [row] }

/-! ### Storage adapters (`src/infrastructure/*_repository.rs`) -/

namespace PostgresCredentialRepository

/-- Method `PostgresCredentialRepository::get_credential`: find the credential row
whose `activity_id` column equals the passed lookup key; absence is
`NotFound`; a found row is reconstructed into the domain `Credential` with
`id := row.user_id` (the owning user's UUID) and `user_id := key`, exactly as
`Credential::reconstruct(credential.user_id, user_id, ...)` does. -/
def get_credential (st : Store) (user_id : String) : Except RepositoryError Credential :=
  match st.credentials.find? (fun c => c.activity_id == user_id) with
  | none => .error RepositoryError.NotFound
  | some row =>
    .ok (Credential.reconstruct row.user_id user_id
          (HashedPassword.new row.password_hash) row.created_at row.updated_at)

/-- Method `PostgresCredentialRepository::create_credential`: insert a credential row
with `user_id := id` and both timestamps `Utc::now()` (parameter `now`). -/
def create_credential (st : Store) (id : Nat) (activity_id : ActivityId)
    (password_hash : HashedPassword) (email : String) (now : Int) :
    Except RepositoryError Store :=
  insertCredential st
    { user_id := id
      activity_id := activity_id.value
      password_hash := password_hash.raw
      email := email
      created_at := now
      updated_at := now }

end PostgresCredentialRepository

namespace PostgresUserRepository

/-- Rebuild a domain `User` from a `users` row, as both `find_by_username` and
`find_by_id` do: re-validate the activity identifier and the display name,
mapping a domain failure to `DatabaseError`. -/
def userFromRow (m : UserRow) : Except RepositoryError (Option User) :=
  match ActivityId.new m.activity_id with
  | .error _ => .error (RepositoryError.DatabaseError "invalid activity id")
  | .ok aid =>
    match User.new m.id aid m.name m.icon with
    | .error _ => .error (RepositoryError.DatabaseError "invalid user")
    | .ok u => .ok (some u)

/-- Method `PostgresUserRepository::find_by_id`. -/
def find_by_id (st : Store) (id : Nat) : Except RepositoryError (Option User) :=
  match st.users.find? (fun u => u.id == id) with
  | none => .ok none
  | some m => userFromRow m

/-- Method `PostgresUserRepository::find_by_username`. -/
def find_by_username (st : Store) (username : String) :
    Except RepositoryError (Option User) :=
  match st.users.find? (fun u => u.name == username) with
  | none => .ok none
  | some m => userFromRow m

/-- Method `PostgresUserRepository::register_user`: insert a user row with a fresh
UUID (parameter `newId`), empty summary and no icon, returning the inserted
id. -/
def register_user (st : Store) (newId : Nat) (activity_id : ActivityId)
    (display_name : String) : Except RepositoryError (Store × Nat) :=
  match insertUser st
      { id := newId
        activity_id := activity_id.value
        name := display_name
        summary := ""
        icon := none } with
  | .error e => .error e
  | .ok st1 => .ok (st1, newId)

end PostgresUserRepository

namespace PostgresUserRegistrationRepository

/-- Method `PostgresUserRegistrationRepository::register_user_with_credentials`
(`user_registration_repository.rs` lines 28–84): inside one transaction,
insert the user row and the credential row; any failure before `commit` rolls
the transaction back, so the store is returned unchanged.  After the commit
the domain `User` is rebuilt with `.expect(...)`; the panic on an empty
display name is modelled as `.ok none` (it occurs after the commit, so the
committed store is kept). -/
def register_user_with_credentials (st : Store) (newId : Nat) (now : Int)
    (activity_id : ActivityId) (display_name : String)
    (password_hash : HashedPassword) (email : String) :
    Store × Except RepositoryError (Option User) :=
  match insertUser st
      { id := newId
        activity_id := activity_id.value
        name := display_name
        summary := ""
        icon := none } with
  | .error e => (st, .error e)
  | .ok st1 =>
    match insertCredential st1
        { user_id := newId
          activity_id := activity_id.value
          password_hash := password_hash.raw
          email := email
          created_at := now
          updated_at := now } with
    | .error e => (st, .error e)
    | .ok st2 =>
      match User.new newId activity_id display_name none with
      | .error _ => (st2, .ok none)
      | .ok user => (st2, .ok (some user))

end PostgresUserRegistrationRepository

/-! ### Usecases (`src/usecase/login_usecase.rs`,
`src/usecase/register_user_usecase.rs`) -/

/-- Rust `LoginResult { token, user }`. -/
structure LoginResult where
  token : String
  user : User
  deriving DecidableEq, Repr

namespace LoginUsecase

/-- Method `LoginUsecase::login`: fetch the credential (a `RepositoryError` is lifted
into `DomainError::Repository` by `?`), verify the password through the
hasher, `credential.validate(is_valid)`, fetch the user by `credential.id()`
(`.ok_or(RepositoryError::NotFound)?` when absent), and issue a token. -/
def login (st : Store) (gen : JwtTokenGenerator) (now : Int)
    (user_id password : String) : Except DomainError LoginResult :=
  match PostgresCredentialRepository.get_credential st user_id with
  | .error e => .error (DomainError.Repository e)
  | .ok credential =>
    match Argon2PasswordHasher.verify password credential.password_hash with
    | .error e => .error e
    | .ok is_valid =>
      match credential.validate is_valid with
      | .error e => .error e
      | .ok _ =>
        match PostgresUserRepository.find_by_id st credential.id with
        | .error e => .error (DomainError.Repository e)
        | .ok none => .error (DomainError.Repository RepositoryError.NotFound)
        | .ok (some user) =>
          match JwtTokenGenerator.generate gen user now with
          | .error e => .error e
          | .ok token => .ok ⟨token, user⟩

end LoginUsecase

namespace RegisterUserUsecase

/-- Method `RegisterUserUsecase::create_user` (`register_user_usecase.rs` lines
40–72): derive `https://{instance_host}/users/{user_id}`, hash the password,
insert the user row via `register_user`, build the domain `User`, insert the
credential row via `create_credential`, and issue a token.  The store is
threaded explicitly so the persisted state is visible on every exit path;
there is no transaction and no compensation around the two inserts. -/
def create_user (st : Store) (instance_host salt : String) (newId : Nat)
    (now : Int) (gen : JwtTokenGenerator)
    (user_id display_name password email : String) :
    Store × Except DomainError LoginResult :=
  match ActivityId.new ("https://" ++ instance_host ++ "/users/" ++ user_id) with
  | .error e => (st, .error e)
  | .ok activity_id =>
    match Argon2PasswordHasher.hash salt password with
    | .error e => (st, .error e)
    | .ok password_hash =>
      match PostgresUserRepository.register_user st newId activity_id display_name with
      | .error e => (st, .error (DomainError.Repository e))
      | .ok (st1, id) =>
        match User.new id activity_id display_name none with
        | .error e => (st1, .error e)
        | .ok user =>
          match PostgresCredentialRepository.create_credential st1 user.id.uuid
              user.activity_id password_hash email now with
          | .error e => (st1, .error (DomainError.Repository e))
          | .ok st2 =>
            match JwtTokenGenerator.generate gen user now with
            | .error e => (st2, .error e)
            | .ok token => (st2, .ok ⟨token, user⟩)

end RegisterUserUsecase

/-! ### HTTP handler layer (`src/presentation/handlers/user_handler.rs`) -/

/-- Rust `LoginRequest { user_id, password }`. -/
structure LoginRequest where
  user_id : String
  password : String
  deriving DecidableEq, Repr

/-- An HTTP response: status code and body. -/
structure HttpResponse where
  status : Nat
  body : String
  deriving DecidableEq, Repr

/-- Stand-in for the serde JSON serialisation of a successful
`LoginResponse`; the claims never inspect the success body. -/
def loginResponseBody (r : LoginResult) : String :=
  "json·" ++ r.token ++ "·" ++ uuidToString r.user.id.uuid ++ "·" ++ r.user.display_name

/-- The `login` handler: a successful usecase run maps to
`(StatusCode::OK, Json(response))`; every `Err(_)` maps to
`(StatusCode::UNAUTHORIZED, Json("Authentication failed"))`. -/
def loginHandler (st : Store) (gen : JwtTokenGenerator) (now : Int)
    (payload : LoginRequest) : HttpResponse :=
  match LoginUsecase.login st gen now payload.user_id payload.password with
  | .ok result => ⟨200, loginResponseBody result⟩
  | .error _ => ⟨401, "Authentication failed"⟩

/-! ## Supporting lemmas -/

/-- A list is a `isPrefixOf` of itself followed by anything. -/
theorem isPrefixOf_append_left (l m : List Char) : l.isPrefixOf (l ++ m) = true := by
  induction l with
  | nil => simp [List.isPrefixOf]
  | cons a as ih => simp [List.isPrefixOf, ih]

/-- Rust `starts_with`: a string starts with itself followed by anything. -/
theorem strStartsWith_append (p r : String) : strStartsWith p (p ++ r) = true := by
  show p.toList.isPrefixOf (p.toList ++ r.toList) = true
  exact isPrefixOf_append_left _ _

/-- Splitting at the first `'$'` inverts appending one. -/
theorem splitFirst_append (a b : List Char) (h : '$' ∉ a) :
    splitFirst (a ++ '$' :: b) = some (a, b) := by
  induction a with
  | nil => simp [splitFirst]
  | cons c cs ih =>
    have hc : c ≠ '$' := fun e => h (e ▸ List.mem_cons_self c cs)
    have hcs : '$' ∉ cs := fun m => h (List.mem_cons_of_mem _ m)
    simp [splitFirst, hc, ih hcs]

/-- The PHC parser inverts the PHC encoder (salts are `'$'`-free, as the
base64 salts produced by `SaltString::generate` are). -/
theorem parsePhc_phcEncode (salt digest : String) (h : '$' ∉ salt.toList) :
    parsePhc (phcEncode salt digest) = some (salt, digest) := by
  have hl : (phcEncode salt digest).toList
      = "$argon2id$".toList ++ (salt.toList ++ '$' :: digest.toList) := by
    show "$argon2id$".toList ++ salt.toList ++ ['$'] ++ digest.toList = _
    simp [List.append_assoc]
  unfold parsePhc
  rw [hl, List.drop_left, isPrefixOf_append_left, splitFirst_append _ _ h]
  rfl

/-- The derived activity-identifier string always carries the `https://`
scheme. -/
theorem strStartsWith_derived (host uid : String) :
    strStartsWith "https://" ("https://" ++ host ++ "/users/" ++ uid) = true := by
  rw [String.append_assoc, String.append_assoc]
  exact strStartsWith_append _ _

/-- A successful `ActivityId.new` returns its argument unchanged. -/
theorem activityId_new_ok {s : String} {a : ActivityId}
    (h : ActivityId.new s = .ok a) : a.value = s := by
  unfold ActivityId.new at h
  split at h
  · cases h
  · cases h; rfl

/-- A successful `User.new` stores its arguments unchanged. -/
theorem user_new_ok {id : Nat} {aid : ActivityId} {dn : String}
    {icon : Option String} {user : User}
    (h : User.new id aid dn icon = .ok user) :
    user.id = ⟨id⟩ ∧ user.activity_id = aid ∧ user.display_name = dn := by
  unfold User.new at h
  split at h
  · cases h
  · cases h; exact ⟨rfl, rfl, rfl⟩

/-- A successful `get_credential` comes from a credential row whose
`activity_id` column equals the lookup key, and reconstructs the domain
credential with `id := row.user_id`. -/
theorem get_credential_ok {st : Store} {key : String} {cred : Credential}
    (h : PostgresCredentialRepository.get_credential st key = .ok cred) :
    ∃ row ∈ st.credentials, row.activity_id = key
      ∧ cred = Credential.reconstruct row.user_id key
          (HashedPassword.new row.password_hash) row.created_at row.updated_at := by
  unfold PostgresCredentialRepository.get_credential at h
  cases hf : st.credentials.find? (fun c => c.activity_id == key) with
  | none => rw [hf] at h; cases h
  | some row =>
    rw [hf] at h
    cases h
    refine ⟨row, List.mem_of_find?_eq_some hf, ?_, rfl⟩
    have := List.find?_some hf
    exact eq_of_beq this

/-- A successful `insertUser` appends exactly the given row. -/
theorem insertUser_ok {st : Store} {row : UserRow} {st' : Store}
    (h : insertUser st row = .ok st') :
    st' = { st with users := st.users ++ [row] } := by
  unfold insertUser at h
  split at h
  · cases h
  · cases h; rfl

/-- A successful `insertCredential` appends exactly the given row. -/
theorem insertCredential_ok {st : Store} {row : CredentialRow} {st' : Store}
    (h : insertCredential st row = .ok st') :
    st' = { st with credentials := st.credentials ++ [row] } := by
  unfold insertCredential at h
  split at h
  · cases h
  · cases h; rfl

/-- Atomicity of the transactional registration adapter, for contrast with
the usecase path: any failure rolls back to the unchanged store, and a commit
leaves both the user row and its credential row. -/
theorem register_user_with_credentials_both_or_neither
    (st : Store) (newId : Nat) (now : Int) (activity_id : ActivityId)
    (display_name : String) (password_hash : HashedPassword) (email : String) :
    (∀ st' e, PostgresUserRegistrationRepository.register_user_with_credentials
        st newId now activity_id display_name password_hash email = (st', .error e) →
        st' = st)
    ∧ (∀ st' u, PostgresUserRegistrationRepository.register_user_with_credentials
        st newId now activity_id display_name password_hash email = (st', .ok u) →
        st'.users.any (fun r => r.id == newId)
          ∧ st'.credentials.any (fun r => r.user_id == newId)) := by
  constructor
  · intro st' e h
    unfold PostgresUserRegistrationRepository.register_user_with_credentials at h
    split at h
    · injection h with h1 h2; exact h1.symm
    · split at h
      · injection h with h1 h2; exact h1.symm
      · split at h <;> (injection h with h1 h2; cases h2)
  · intro st' u h
    unfold PostgresUserRegistrationRepository.register_user_with_credentials at h
    split at h
    · injection h with h1 h2; cases h2
    · rename_i st1 hins1
      split at h
      · injection h with h1 h2; cases h2
      · rename_i st2 hins2
        have e1 := insertUser_ok hins1
        have e2 := insertCredential_ok hins2
        split at h <;>
          (injection h with h1 h2;
           subst h1; subst e2; subst e1;
           constructor <;> simp [List.any_append])

/-! ## Claims -/

/-- C6: for every string not starting with `https://`, `ActivityId`
construction fails with `InvalidActivityId`; for every string that does, it
succeeds and reading the constructed value back yields the same string. -/
theorem activityId_scheme_validation_round_trip (s : String) :
    (strStartsWith "https://" s = false →
      ActivityId.new s = .error DomainError.InvalidActivityId)
    ∧ (strStartsWith "https://" s = true →
      ∃ a, ActivityId.new s = .ok a ∧ a.as_str = s) := by
  constructor
  · intro h; simp [ActivityId.new, h]
  · intro h; exact ⟨⟨s⟩, by simp [ActivityId.new, h], rfl⟩

/-- C6 witness: a concrete rejected string and a concrete accepted round
trip. -/
theorem activityId_scheme_validation_round_trip_witness :
    ActivityId.new "http://example.com/users/alice" = .error DomainError.InvalidActivityId
    ∧ ∃ a, ActivityId.new "https://example.com/users/alice" = .ok a
        ∧ a.as_str = "https://example.com/users/alice" :=
  ⟨(activityId_scheme_validation_round_trip _).1 (by decide),
   (activityId_scheme_validation_round_trip _).2 (by decide)⟩

/-- C10: the minimum-length gate in `Argon2PasswordHasher::hash` and
`HashedPassword::from_password` measures the UTF-8 byte length (Rust
`String::len`), not the character count: rejection with `WeakPassword`
happens exactly when the byte length is below 8, and any plaintext of at
least 8 bytes is hashed. -/
theorem password_gate_is_utf8_byte_length (salt p : String) :
    (Argon2PasswordHasher.hash salt p = .error DomainError.WeakPassword
      ↔ p.utf8ByteSize < 8)
    ∧ (8 ≤ p.utf8ByteSize →
      Argon2PasswordHasher.hash salt p
        = .ok (HashedPassword.new (phcEncode salt (argon2Digest salt p))))
    ∧ (HashedPassword.from_password salt p = .error DomainError.WeakPassword
      ↔ p.utf8ByteSize < 8) := by
  refine ⟨?_, ?_, ?_⟩
  · constructor
    · intro h
      by_contra hge
      simp [Argon2PasswordHasher.hash, hge] at h
    · intro h; simp [Argon2PasswordHasher.hash, h]
  · intro h
    simp [Argon2PasswordHasher.hash, Nat.not_lt.mpr h]
  · constructor
    · intro h
      by_contra hge
      simp [HashedPassword.from_password, hge] at h
    · intro h; simp [HashedPassword.from_password, h]

/-- C10 witness: a three-character string of three-byte characters (9 bytes)
is accepted although it has fewer than 8 characters. -/
theorem password_gate_is_utf8_byte_length_witness :
    "あいう".length = 3 ∧ "あいう".utf8ByteSize = 9
    ∧ Argon2PasswordHasher.hash "salty" "あいう"
        = .ok (HashedPassword.new (phcEncode "salty" (argon2Digest "salty" "あいう"))) :=
  ⟨by decide, by decide,
   (password_gate_is_utf8_byte_length "salty" "あいう").2.1 (by decide)⟩

/-- C4 counterexample: the five-character plaintext "ぱすわーど" has fewer
than 8 characters, yet hashing succeeds rather than failing with
`WeakPassword`, because the gate measures UTF-8 bytes (15 here). -/
theorem weak_password_gate_counterexample :
    "ぱすわーど".length < 8
    ∧ Argon2PasswordHasher.hash "somesalt" "ぱすわーど"
        = .ok (HashedPassword.new (phcEncode "somesalt" (argon2Digest "somesalt" "ぱすわーど")))
    ∧ Argon2PasswordHasher.hash "somesalt" "ぱすわーど"
        ≠ .error DomainError.WeakPassword :=
  ⟨by decide, by decide, by decide⟩

/-- C4 (amended): for every plaintext whose UTF-8 byte length is below 8,
hashing fails with `WeakPassword`; for every plaintext of at least 8 bytes —
in particular every plaintext of at least 8 characters — hashing succeeds
and verifying that same plaintext against the produced hash returns
`Ok(true)`. -/
theorem hash_gate_and_verify_round_trip (salt p : String)
    (hsalt : '$' ∉ salt.toList) :
    (p.utf8ByteSize < 8 →
      Argon2PasswordHasher.hash salt p = .error DomainError.WeakPassword)
    ∧ (8 ≤ p.utf8ByteSize →
      ∃ h, Argon2PasswordHasher.hash salt p = .ok h
        ∧ Argon2PasswordHasher.verify p h = .ok true) := by
  constructor
  · intro h; simp [Argon2PasswordHasher.hash, h]
  · intro h
    refine ⟨HashedPassword.new (phcEncode salt (argon2Digest salt p)), ?_, ?_⟩
    · simp [Argon2PasswordHasher.hash, Nat.not_lt.mpr h]
    · simp [Argon2PasswordHasher.verify, HashedPassword.new,
        parsePhc_phcEncode _ _ hsalt]

/-- C4 witness: a concrete 11-byte password is hashed and verifies against
its own hash. -/
theorem hash_gate_and_verify_round_trip_witness :
    8 ≤ "longenough1".utf8ByteSize
    ∧ ∃ h, Argon2PasswordHasher.hash "somesalt" "longenough1" = .ok h
        ∧ Argon2PasswordHasher.verify "longenough1" h = .ok true :=
  ⟨by decide,
   (hash_gate_and_verify_round_trip "somesalt" "longenough1" (by decide)).2 (by decide)⟩

/-- C5: `Argon2PasswordHasher::verify` returns `Ok(false)` — a boolean, not
an error — for every stored hash that parses but whose digest does not match
the supplied plaintext, and it signals an error (`InvalidCredentials`) if and
only if the stored hash is not parseable as a hash encoding. -/
theorem verify_mismatch_false_error_iff_unparseable (p : String)
    (s : HashedPassword) :
    (∀ salt digest, parsePhc s.raw = some (salt, digest) →
      argon2Digest salt p ≠ digest → Argon2PasswordHasher.verify p s = .ok false)
    ∧ (∀ e, Argon2PasswordHasher.verify p s = .error e
      ↔ parsePhc s.raw = none ∧ e = DomainError.InvalidCredentials) := by
  refine ⟨?_, ?_⟩
  · intro salt digest hsome hne
    unfold Argon2PasswordHasher.verify
    rw [hsome]
    simp [hne]
  · intro e
    unfold Argon2PasswordHasher.verify
    cases hp : parsePhc s.raw with
    | none =>
      constructor
      · intro h; injection h with h1; exact ⟨rfl, h1.symm⟩
      · rintro ⟨-, rfl⟩; rfl
    | some pr =>
      obtain ⟨salt, digest⟩ := pr
      simp

/-- C5 witness: a parsed-but-mismatching hash yields `Ok(false)`; an
unparseable stored hash yields `Err(InvalidCredentials)`. -/
theorem verify_mismatch_false_error_iff_unparseable_witness :
    Argon2PasswordHasher.verify "password2"
        (HashedPassword.new (phcEncode "s0" (argon2Digest "s0" "password1"))) = .ok false
    ∧ Argon2PasswordHasher.verify "password2"
        (HashedPassword.new "plainly-not-a-hash") = .error DomainError.InvalidCredentials :=
  ⟨(verify_mismatch_false_error_iff_unparseable "password2" _).1 "s0"
      (argon2Digest "s0" "password1") (by decide) (by decide),
   ((verify_mismatch_false_error_iff_unparseable "password2" _).2 _).mpr ⟨by decide, rfl⟩⟩

/-- C9: `Credential::change_password` replaces the stored hash with the new
one and sets `updated_at` to the current time, leaving the credential id, the
owning user identifier and `created_at` unchanged. -/
theorem change_password_replaces_hash_bumps_updated_at (c : Credential)
    (h : HashedPassword) (now : Int) :
    (c.change_password h now).password_hash = h
    ∧ (c.change_password h now).updated_at = now
    ∧ (c.change_password h now).id = c.id
    ∧ (c.change_password h now).user_id = c.user_id
    ∧ (c.change_password h now).created_at = c.created_at :=
  ⟨rfl, rfl, rfl, rfl, rfl⟩

/-- C8: the claim set issued for a user has subject the string form of the
user's identifier, carries the user's activity identifier, has `iat` the
issuance time and `exp` equal to `iat` plus the configured lifetime in hours,
which `JwtTokenGenerator::new` defaults to 24; `generate` signs exactly this
claim set. -/
theorem issued_token_claim_set (secret : String) (user : User) (now : Int) :
    ((JwtTokenGenerator.new secret).buildClaims user now).sub
        = uuidToString user.id.uuid
    ∧ ((JwtTokenGenerator.new secret).buildClaims user now).activity_id
        = user.activity_id.as_str
    ∧ ((JwtTokenGenerator.new secret).buildClaims user now).iat = now
    ∧ ((JwtTokenGenerator.new secret).buildClaims user now).exp = now + 24 * 3600
    ∧ (∀ hrs, ((JwtTokenGenerator.with_expiration secret hrs).buildClaims user now).exp
        = now + hrs * 3600)
    ∧ JwtTokenGenerator.generate (JwtTokenGenerator.new secret) user now
        = .ok (jwtEncode ((JwtTokenGenerator.new secret).buildClaims user now) secret) :=
  ⟨rfl, rfl, rfl, rfl, fun _ => rfl, rfl⟩

/-- C7: the registration protocol derives the activity identifier
deterministically as `https://{host}/users/{identifier}` — the derived string
always passes `ActivityId::new` unchanged — and a successful registration
returns a user whose activity identifier is exactly that string. -/
theorem registration_derives_activity_identifier
    (st : Store) (host salt : String) (newId : Nat) (now : Int)
    (gen : JwtTokenGenerator) (user_id display_name password email : String)
    (st' : Store) (r : LoginResult)
    (h : RegisterUserUsecase.create_user st host salt newId now gen
        user_id display_name password email = (st', .ok r)) :
    ActivityId.new ("https://" ++ host ++ "/users/" ++ user_id)
      = .ok ⟨"https://" ++ host ++ "/users/" ++ user_id⟩
    ∧ r.user.activity_id.as_str = "https://" ++ host ++ "/users/" ++ user_id := by
  have hnew : ActivityId.new ("https://" ++ host ++ "/users/" ++ user_id)
      = .ok ⟨"https://" ++ host ++ "/users/" ++ user_id⟩ := by
    simp [ActivityId.new, strStartsWith_derived]
  refine ⟨hnew, ?_⟩
  unfold RegisterUserUsecase.create_user at h
  split at h
  · rename_i e heq
    rw [hnew] at heq; cases heq
  · rename_i activity_id heq
    have haid : activity_id.value = "https://" ++ host ++ "/users/" ++ user_id :=
      activityId_new_ok heq
    split at h
    · injection h with h1 h2; cases h2
    · split at h
      · injection h with h1 h2; cases h2
      · split at h
        · injection h with h1 h2; cases h2
        · rename_i user huser
          split at h
          · injection h with h1 h2; cases h2
          · split at h
            · injection h with h1 h2; cases h2
            · injection h with h1 h2
              injection h2 with h3
              have hu := (user_new_ok huser).2.1
              rw [← h3]
              show user.activity_id.as_str = _
              rw [ActivityId.as_str, hu, haid]

/-- C7 witness: registering "alice" on an empty store succeeds and the
returned user's activity identifier is `https://example.com/users/alice`. -/
theorem registration_derives_activity_identifier_witness :
    ∃ st' r, RegisterUserUsecase.create_user Store.empty "example.com" "s1" 1 0
        (JwtTokenGenerator.new "testtoken") "alice" "Alice" "longenough1" "a@x.com"
        = (st', .ok r)
      ∧ r.user.activity_id.as_str = "https://example.com/users/alice" := by
  refine ⟨_, _, rfl, ?_⟩
  exact (registration_derives_activity_identifier Store.empty "example.com" "s1" 1 0
      (JwtTokenGenerator.new "testtoken") "alice" "Alice" "longenough1" "a@x.com"
      _ _ rfl).2

/-- C3 (with `Credential::validate` modelled from the spec): after the
password verifies, the user is fetched by `credential.id`, which
`get_credential` populates from the credential row's `user_id` column — the
owning user's identifier; when no such user exists, the protocol fails with
the internal repository error `Repository(NotFound)`, not with
`AuthenticationFailed`. -/
theorem login_missing_user_is_repository_error
    (st : Store) (gen : JwtTokenGenerator) (now : Int) (key pw : String)
    (cred : Credential)
    (hc : PostgresCredentialRepository.get_credential st key = .ok cred)
    (hv : Argon2PasswordHasher.verify pw cred.password_hash = .ok true)
    (hu : PostgresUserRepository.find_by_id st cred.id = .ok none) :
    LoginUsecase.login st gen now key pw
      = .error (DomainError.Repository RepositoryError.NotFound)
    ∧ LoginUsecase.login st gen now key pw ≠ .error DomainError.AuthenticationFailed
    ∧ ∃ row ∈ st.credentials, row.activity_id = key ∧ cred.id = row.user_id := by
  have hlogin : LoginUsecase.login st gen now key pw
      = .error (DomainError.Repository RepositoryError.NotFound) := by
    simp only [LoginUsecase.login, hc, hv, Credential.validate, if_true, hu]
  refine ⟨hlogin, by rw [hlogin]; decide, ?_⟩
  obtain ⟨row, hmem, hkey, hcred⟩ := get_credential_ok hc
  exact ⟨row, hmem, hkey, by rw [hcred]; rfl⟩

/-- C3 witness: a store holding a credential row (owning user 7) but no user
rows: logging in with the right password fails with `Repository(NotFound)`. -/
theorem login_missing_user_is_repository_error_witness :
    LoginUsecase.login
        { users := [],
          credentials := [
            { user_id := 7, activity_id := "ghost",
              password_hash := phcEncode "s0" (argon2Digest "s0" "rightpass1"),
              email := "g@x.com", created_at := 0, updated_at := 0 }] }
        (JwtTokenGenerator.new "sec") 0 "ghost" "rightpass1"
      = .error (DomainError.Repository RepositoryError.NotFound) :=
  (login_missing_user_is_repository_error _ _ _ _ _
      (Credential.reconstruct 7 "ghost"
        (HashedPassword.new (phcEncode "s0" (argon2Digest "s0" "rightpass1"))) 0 0)
      (by decide) (by decide) (by decide)).1

/-- C2 counterexample: with one stored credential for "alice", a login run
with the unknown identifier "bob" returns `Repository(NotFound)` while a run
with "alice" and a wrong password returns `AuthenticationFailed` — the login
protocol does not return one identical `AuthenticationFailed` class for the
two runs. -/
theorem login_unknown_vs_wrong_password_counterexample :
    LoginUsecase.login
        { users := [
            { id := 1, activity_id := "https://example.com/users/alice",
              name := "Alice", summary := "", icon := none }],
          credentials := [
            { user_id := 1, activity_id := "alice",
              password_hash := phcEncode "s0" (argon2Digest "s0" "rightpass1"),
              email := "a@x.com", created_at := 0, updated_at := 0 }] }
        (JwtTokenGenerator.new "sec") 0 "bob" "rightpass1"
      = .error (DomainError.Repository RepositoryError.NotFound)
    ∧ LoginUsecase.login
        { users := [
            { id := 1, activity_id := "https://example.com/users/alice",
              name := "Alice", summary := "", icon := none }],
          credentials := [
            { user_id := 1, activity_id := "alice",
              password_hash := phcEncode "s0" (argon2Digest "s0" "rightpass1"),
              email := "a@x.com", created_at := 0, updated_at := 0 }] }
        (JwtTokenGenerator.new "sec") 0 "alice" "wrongpass1"
      = .error DomainError.AuthenticationFailed
    ∧ DomainError.Repository RepositoryError.NotFound
        ≠ DomainError.AuthenticationFailed :=
  ⟨by decide, by decide, by decide⟩

/-- C2 (amended): the HTTP handler maps every login failure to the identical
outward response `(401, "Authentication failed")`, so an unknown identifier
and a wrong password are indistinguishable to the HTTP caller; at the usecase
boundary, however, an identifier with no stored credential yields
`Repository(NotFound)` rather than `AuthenticationFailed`. -/
theorem login_failures_collapse_at_handler
    (st : Store) (gen : JwtTokenGenerator) (now : Int) :
    (∀ id pw e, LoginUsecase.login st gen now id pw = .error e →
      loginHandler st gen now ⟨id, pw⟩ = ⟨401, "Authentication failed"⟩)
    ∧ (∀ id pw, st.credentials.find? (fun c => c.activity_id == id) = none →
      LoginUsecase.login st gen now id pw
        = .error (DomainError.Repository RepositoryError.NotFound)) := by
  constructor
  · intro id pw e h
    unfold loginHandler
    rw [h]
  · intro id pw hnone
    unfold LoginUsecase.login PostgresCredentialRepository.get_credential
    rw [hnone]

/-- C2 witness: on a concrete store, both failing runs produce the same
`(401, "Authentication failed")` response, while the usecase error for the
unknown identifier is `Repository(NotFound)`. -/
theorem login_failures_collapse_at_handler_witness :
    loginHandler
        { users := [
            { id := 1, activity_id := "https://example.com/users/alice",
              name := "Alice", summary := "", icon := none }],
          credentials := [
            { user_id := 1, activity_id := "alice",
              password_hash := phcEncode "s0" (argon2Digest "s0" "rightpass1"),
              email := "a@x.com", created_at := 0, updated_at := 0 }] }
        (JwtTokenGenerator.new "sec") 0 ⟨"bob", "rightpass1"⟩
      = ⟨401, "Authentication failed"⟩
    ∧ loginHandler
        { users := [
            { id := 1, activity_id := "https://example.com/users/alice",
              name := "Alice", summary := "", icon := none }],
          credentials := [
            { user_id := 1, activity_id := "alice",
              password_hash := phcEncode "s0" (argon2Digest "s0" "rightpass1"),
              email := "a@x.com", created_at := 0, updated_at := 0 }] }
        (JwtTokenGenerator.new "sec") 0 ⟨"alice", "wrongpass1"⟩
      = ⟨401, "Authentication failed"⟩ :=
  ⟨(login_failures_collapse_at_handler _ _ _).1 "bob" "rightpass1"
      (DomainError.Repository RepositoryError.NotFound) (by decide),
   (login_failures_collapse_at_handler _ _ _).1 "alice" "wrongpass1"
      DomainError.AuthenticationFailed (by decide)⟩

/-- C1: the registration usecase under `src` is not atomic.  Registering with
an empty display name on an empty store inserts the user row, then fails at
`User::new`, leaving a persisted user with no credential; registering with an
already-used email inserts the new user row, then fails at the credential
insert, again leaving a user with no credential. -/
theorem create_user_leaves_orphaned_user_row :
    RegisterUserUsecase.create_user Store.empty "example.com" "s1" 7 0
        (JwtTokenGenerator.new "testtoken") "alice" "" "longenough1" "a@x.com"
      = ({ users := [
              { id := 7, activity_id := "https://example.com/users/alice",
                name := "", summary := "", icon := none }],
           credentials := [] },
         .error DomainError.EmptyDisplayName)
    ∧ RegisterUserUsecase.create_user
        { users := [
            { id := 1, activity_id := "https://example.com/users/alice",
              name := "Alice", summary := "", icon := none }],
          credentials := [
            { user_id := 1,
              activity_id := "https://example.com/users/alice",
              password_hash := phcEncode "s0" (argon2Digest "s0" "rightpass1"),
              email := "a@x.com", created_at := 0, updated_at := 0 }] }
        "example.com" "s1" 7 0 (JwtTokenGenerator.new "sec")
        "bob" "Bob" "longenough1" "a@x.com"
      = ({ users := [
              { id := 1, activity_id := "https://example.com/users/alice",
                name := "Alice", summary := "", icon := none },
              { id := 7, activity_id := "https://example.com/users/bob",
                name := "Bob", summary := "", icon := none }],
           credentials := [
              { user_id := 1,
                activity_id := "https://example.com/users/alice",
                password_hash := phcEncode "s0" (argon2Digest "s0" "rightpass1"),
                email := "a@x.com", created_at := 0, updated_at := 0 }] },
         .error (DomainError.Repository
            (RepositoryError.DatabaseError "credentials unique violation"))) :=
  ⟨by decide, by decide⟩

end Cascade
